import Mathlib

/-!
# Layered configuration-resolution engine: shallow embedding

A shallow embedding of the layered configuration-resolution engine of
`usaspending_api/config`.  The engine module itself (the pydantic-backed
`DefaultConfig`/`LocalConfig` classes, the `_load_config` memoized loader, the
`ENV_SPECIFIC_OVERRIDE`/`USER_SPECIFIC_OVERRIDE` sentinels) is not part of the
source tree here; only its unit-test module
`usaspending_api/config/tests/unit/test_config.py` is.  The definitions below
are therefore modelled from the specification of the engine, with the unit
tests' asserted behavior taken as the authority wherever the two disagree
(the tests exercise the real engine, so their assertions record what the
engine actually does).

Configuration values are strings; a configuration class is a list of field
declarations; inheritance is a linear chain of classes, most-derived first.
-/

namespace UsaConfig

/-- Configuration values as they appear in the tests: plain strings. -/
abbrev Value := String

/-- Errors of the configuration engine (spec section 7 taxonomy).
`abstractInstantiation` models the `NotImplementedError` raised when the
abstract base class is constructed directly; `ambiguousShadowing` models the
naming-collision error raised when a subclass redeclares a computed
(property) field as a plain value; `invalidFieldDeclaration` models the
`ValueError` raised by the sentinel-checking derived-field resolvers when the
field's static default is not the unset sentinel; `missingField` models a
lookup of a field that was never given any value (`KeyError`). -/
inductive ConfigError where
  | abstractInstantiation : ConfigError
  | ambiguousShadowing : String → ConfigError
  | invalidFieldDeclaration : ConfigError
  | missingField : String → ConfigError
  | unknownEnvironment : String → ConfigError
deriving DecidableEq, Repr

/-- A computed (property) accessor: a function of the resolved-field lookup
and of the process environment lookup.  Properties in the source are bound
methods reading `self.<FIELD>` (the resolved fields) and possibly
`os.environ` directly, as `_UnitTestBaseConfig.UNITTEST_CFG_H` does. -/
abbrev Accessor := (String → Option Value) → (String → Option Value) → Value

/-- A derived-field resolver (a pydantic `validator` used as a pre/post
processor): a function of the incoming value after the override layers, the
field's static declared default, and the map of all field values resolved so
far, returning the final value or a fatal error. -/
abbrev Resolver := Option Value → Option Value → List (String × Value) → Except ConfigError Value

/-- One member declaration in a configuration class body.
`plain` is a non-callable attribute with a default value (the `annotated`
flag records whether the declaration carries a type annotation, which decides
its position in pydantic's field ordering); `derived` is a type-annotated
field with a registered resolver (validator); `property` is a computed
accessor, invisible to the override and validation machinery. -/
inductive FieldDecl where
  | plain : Bool → Value → FieldDecl
  | derived : Option Value → Resolver → FieldDecl
  | property : Accessor → FieldDecl

/-- The kind assigned to a field name by the classifier, after walking the
inheritance chain. -/
inductive FieldKind where
  | plainK : Option Value → FieldKind
  | derivedK : Option Value → Resolver → FieldKind
  | propK : Accessor → FieldKind

/-- A configuration class: an environment code, an abstract flag (the base
`DefaultConfig` refuses direct construction), and the ordered member
declarations of the class body. -/
structure ConfigClass where
  envCode : String
  isAbstract : Bool
  decls : List (String × FieldDecl)

/-- An inheritance chain, most-derived class first (linear inheritance). -/
abbrev Chain := List ConfigClass

/-- A declaration is tracked (a pydantic field) iff it is not a property. -/
def isTrackedDecl : FieldDecl → Bool
  | .plain _ _ => true
  | .derived _ _ => true
  | .property _ => false

/-- A declaration is a computed accessor. -/
def isPropertyDecl : FieldDecl → Bool
  | .property _ => true
  | _ => false

/-- A declaration carries a type annotation (derived fields always do). -/
def declAnnotated : FieldDecl → Bool
  | .plain a _ => a
  | .derived _ _ => true
  | .property _ => false

/-- All declarations of one field name along the chain, most-derived first. -/
def declsFor (chain : Chain) (n : String) : List FieldDecl :=
  chain.filterMap (fun c => c.decls.lookup n)

/-- The ambiguous-shadowing hazard: a tracked (plain or derived) declaration
that is strictly more derived than a property declaration of the same name.
The source documents this as a fatal naming error
(`test_config.py` line 272: redeclaring the property `UNITTEST_CFG_F` as a
plain value "throws a NameError"), while the converse order (more-derived
property over a less-derived plain value, `UNITTEST_CFG_C`) is accepted. -/
def hasShadowError : List FieldDecl → Bool
  | [] => false
  | d :: rest => (isTrackedDecl d && rest.any isPropertyDecl) || hasShadowError rest

/-- Classify one field name from its declarations (most-derived first):
the most-derived tracked declaration fixes the default (and, for a derived
declaration, the resolver); a name with only property declarations is a
computed accessor, taken from the most-derived one.  A subclass plain
redeclaration of an inherited derived field drops the resolver, which is the
behavior the tests record for `UNITTEST_CFG_X` overridden in
`_UnitTestSubConfig` (its subclass value sticks and no resolver error is
raised). -/
def classifyName (n : String) (ds : List FieldDecl) : Except ConfigError FieldKind :=
  if hasShadowError ds then .error (.ambiguousShadowing n)
  else
    match ds.find? isTrackedDecl with
    | some (.plain _ v) => .ok (.plainK (some v))
    | some (.derived d r) => .ok (.derivedK d r)
    | some (.property a) => .ok (.propK a)
    | none =>
      match ds.findSome? (fun d => match d with | .property a => some a | _ => none) with
      | some a => .ok (.propK a)
      | none => .error (.missingField n)

/-- Deduplicate a name list keeping first occurrences. -/
def dedupFirst (l : List String) : List String :=
  l.foldl (fun acc x => if acc.contains x then acc else acc ++ [x]) []

/-- Every member name of the chain, ancestor declarations first (the order in
which pydantic sees inherited fields). -/
def allNames (chain : Chain) : List String :=
  dedupFirst ((chain.reverse.map (fun c => c.decls.map Prod.fst)).flatten)

/-- A name is tracked iff some declaration for it is tracked. -/
def trackedName (chain : Chain) (n : String) : Bool :=
  (declsFor chain n).any isTrackedDecl

/-- A name belongs to the annotated group iff some declaration for it is
annotated.  Pydantic orders annotated fields before non-annotated ones, and a
resolver only sees the values of fields validated before it. -/
def nameAnnotated (chain : Chain) (n : String) : Bool :=
  (declsFor chain n).any declAnnotated

/-- The tracked field names in resolution order: annotated fields first, then
non-annotated fields, each group in ancestor-first declaration order. -/
def orderedFieldNames (chain : Chain) : List String :=
  (allNames chain).filter (fun n => trackedName chain n && nameAnnotated chain n) ++
    (allNames chain).filter (fun n => trackedName chain n && !nameAnnotated chain n)

/-- Run the classifier over every member name, surfacing the first
class-definition inspection error (the shadowing hazard). -/
def inspectNames (chain : Chain) : List String → Except ConfigError Unit
  | [] => .ok ()
  | n :: rest =>
    match classifyName n (declsFor chain n) with
    | .error e => .error e
    | .ok _ => inspectNames chain rest

/-- Class-definition inspection of a chain: classify every member name. -/
def inspectDeclarations (chain : Chain) : Except ConfigError Unit :=
  inspectNames chain (allNames chain)

/-- Modelled from the spec: the two internal "use default" sentinels
`ENV_SPECIFIC_OVERRIDE` and `USER_SPECIFIC_OVERRIDE` of
`usaspending_api/config/utils.py`, which is not in the source tree; the spec
describes them only as two designated unset sentinels that a sentinel-checking
resolver refuses to honor as incoming values. -/
def ENV_SPECIFIC_OVERRIDE : Value := "ENV_SPECIFIC_OVERRIDE"

/-- Modelled from the spec: the second designated unset sentinel, see
`ENV_SPECIFIC_OVERRIDE`. -/
def USER_SPECIFIC_OVERRIDE : Value := "USER_SPECIFIC_OVERRIDE"

/-- Compose the final values of two already-resolved fields, `values[f] +
":" + values[g]`; a missing component is a fatal error (`KeyError` in the
source, which is what happens when a resolver composes from a field that is
not annotated and hence not yet in the values map). -/
def composeFrom (f g : String) (values : List (String × Value)) : Except ConfigError Value :=
  match values.lookup f, values.lookup g with
  | some a, some b => .ok (a ++ ":" ++ b)
  | none, _ => .error (.missingField f)
  | _, none => .error (.missingField g)

/-- The sentinel-checking resolver style of `_UnitTestBaseConfig._UNITTEST_CFG_U`
and `._UNITTEST_CFG_X`: demand that the static default be the unset sentinel
(`None`), honor a truthy non-sentinel incoming value unchanged, and otherwise
compose the final values of the two named fields.  An incoming empty string is
falsy in the source (`if assigned_or_sourced_val and ...`) and therefore falls
through to the composition. -/
def sentinelResolver (f g : String) : Resolver := fun v dflt values =>
  if dflt.isSome then .error .invalidFieldDeclaration
  else
    match v with
    | some s =>
      if s != "" && s != ENV_SPECIFIC_OVERRIDE && s != USER_SPECIFIC_OVERRIDE then .ok s
      else composeFrom f g values
    | none => composeFrom f g values

/-- The unconditional resolver style of `_UnitTestBaseConfig._UNITTEST_CFG_O`
and `._UNITTEST_CFG_R`: ignore the incoming value and the static default
entirely and always return the composition of the two named fields' final
values. -/
def composeResolver (f g : String) : Resolver := fun _ _ values => composeFrom f g values

/-- The override layer stack for one tracked field (spec section 4.2): start
from the most-derived static default, overwrite from the dotenv file, then
from the process environment, then from the explicit constructor/CLI
arguments, highest precedence last. -/
def rawValue (dflt : Option Value) (n : String)
    (dotenv env args : List (String × Value)) : Option Value :=
  match args.lookup n with
  | some v => some v
  | none =>
    match env.lookup n with
    | some v => some v
    | none =>
      match dotenv.lookup n with
      | some v => some v
      | none => dflt

/-- Resolve the tracked field names in order, threading the map of values
resolved so far (what a pydantic validator sees as `values`).  A plain field
takes its layered raw value verbatim; a derived field hands its layered raw
value, its static default and the values so far to its resolver. -/
def resolveNames (chain : Chain) (dotenv env args : List (String × Value)) :
    List String → List (String × Value) → Except ConfigError (List (String × Value))
  | [], acc => .ok acc
  | n :: rest, acc =>
    match classifyName n (declsFor chain n) with
    | .error e => .error e
    | .ok (.propK _) => resolveNames chain dotenv env args rest acc
    | .ok (.plainK dflt) =>
      match rawValue dflt n dotenv env args with
      | some v => resolveNames chain dotenv env args rest (acc ++ [(n, v)])
      | none => .error (.missingField n)
    | .ok (.derivedK dflt r) =>
      match r (rawValue dflt n dotenv env args) dflt acc with
      | .ok v => resolveNames chain dotenv env args rest (acc ++ [(n, v)])
      | .error e => .error e

/-- The immutable resolved configuration: the mapping view over tracked
(plain and derived) fields, plus the computed accessors, which are reachable
only by named attribute access, never through the mapping view. -/
structure ResolvedConfig where
  fields : List (String × Value)
  accessors : List (String × Accessor)

/-- Collect the computed accessors of a chain (names classified as
properties). -/
def collectAccessors (chain : Chain) : List (String × Accessor) :=
  (allNames chain).filterMap fun n =>
    match classifyName n (declsFor chain n) with
    | .ok (.propK a) => some (n, a)
    | _ => none

/-- Construct a configuration instance from a chain: run class-definition
inspection, refuse direct construction of an abstract base class
(`NotImplementedError`), then resolve every tracked field through the layer
stack and the resolvers. -/
def instantiate (chain : Chain) (dotenv env args : List (String × Value)) :
    Except ConfigError ResolvedConfig :=
  match inspectDeclarations chain with
  | .error e => .error e
  | .ok _ =>
    match chain.head? with
    | none => .error .abstractInstantiation
    | some c =>
      if c.isAbstract then .error .abstractInstantiation
      else
        match resolveNames chain dotenv env args (orderedFieldNames chain) [] with
        | .error e => .error e
        | .ok fs => .ok ⟨fs, collectAccessors chain⟩

/-- Attribute access on a resolved configuration: tracked fields win; a name
held only by a computed accessor evaluates the accessor at read time against
the resolved fields and the current process environment. -/
def getAttr (cfg : ResolvedConfig) (environ : List (String × Value)) (n : String) :
    Option Value :=
  match cfg.fields.lookup n with
  | some v => some v
  | none =>
    match cfg.accessors.lookup n with
    | some a => some (a (fun m => cfg.fields.lookup m) (fun m => environ.lookup m))
    | none => none

/-- Attribute access through an `Except`-wrapped construction result. -/
def attrOf (r : Except ConfigError ResolvedConfig) (environ : List (String × Value))
    (n : String) : Option Value :=
  match r with
  | .ok c => getAttr c environ n
  | .error _ => none

/-- The mapping view of an `Except`-wrapped construction result (empty on
error). -/
def okFields : Except ConfigError ResolvedConfig → List (String × Value)
  | .ok c => c.fields
  | .error _ => []

/-- Lookup in the mapping view of an `Except`-wrapped construction result. -/
def fieldValueOf (r : Except ConfigError ResolvedConfig) (n : String) : Option Value :=
  (okFields r).lookup n

/-- Whether a construction result succeeded. -/
def isOkCfg : Except ConfigError ResolvedConfig → Bool
  | .ok _ => true
  | .error _ => false

/-! ## The configuration classes of the source

`DefaultConfig` and `LocalConfig` are modelled from the spec (their module is
not in the source tree; the tests pin the base default
`COMPONENT_NAME = "USAspending API"`, the local code `"lcl"`, and that the
base class refuses direct construction).  `_UnitTestBaseConfig` and
`_UnitTestSubConfig` are transcribed from
`usaspending_api/config/tests/unit/test_config.py` lines 169-282. -/

/-- Modelled from the spec: `DefaultConfig`, the abstract base configuration
class of `usaspending_api/config/envs/default.py`, which is not in the source
tree; the spec records that it declares the base defaults and fails direct
construction, and the tests pin `COMPONENT_NAME = "USAspending API"`. -/
def defaultConfigClass : ConfigClass :=
  ⟨"dflt", true, [("COMPONENT_NAME", .plain true "USAspending API")]⟩

/-- Modelled from the spec: `LocalConfig` of
`usaspending_api/config/envs/local.py` (not in the source tree), the concrete
environment class with code `"lcl"` inheriting the base defaults. -/
def localConfigClass : ConfigClass := ⟨"lcl", false, []⟩

/-- The inheritance chain of the abstract base class alone. -/
def defaultChain : Chain := [defaultConfigClass]

/-- The inheritance chain of `LocalConfig`. -/
def localChain : Chain := [localConfigClass, defaultConfigClass]

/-- `_UnitTestBaseConfig` (test_config.py lines 169-257): plain unannotated
fields A-D; properties E-H (H reads `os.environ` directly); plain unannotated
I, J and the eagerly composed K (its class-body default
`UNITTEST_CFG_I + ":" + UNITTEST_CFG_J` is evaluated when the class body is
read, so the declaration stores the already-concatenated string); the lambda
L (ignored by the field machinery, reading the class statics); annotated
plain M, N, P, Q, S, T, V, W; the always-compute derived O and R; and the
sentinel-checking derived U and X with unset (`None`) defaults. -/
def unitTestBaseConfigClass : ConfigClass :=
  ⟨"utb", false,
    [("UNITTEST_CFG_A", .plain false "UNITTEST_CFG_A"),
     ("UNITTEST_CFG_B", .plain false "UNITTEST_CFG_B"),
     ("UNITTEST_CFG_C", .plain false "UNITTEST_CFG_C"),
     ("UNITTEST_CFG_D", .plain false "UNITTEST_CFG_D"),
     ("UNITTEST_CFG_E", .property (fun fl _ =>
        (fl "UNITTEST_CFG_A").getD "" ++ ":" ++ (fl "UNITTEST_CFG_B").getD "")),
     ("UNITTEST_CFG_F", .property (fun _ _ => "UNITTEST_CFG_F")),
     ("UNITTEST_CFG_G", .property (fun _ _ => "UNITTEST_CFG_G")),
     ("UNITTEST_CFG_H", .property (fun _ el =>
        (el "UNITTEST_CFG_H").getD "UNITTEST_CFG_H")),
     ("UNITTEST_CFG_I", .plain false "UNITTEST_CFG_I"),
     ("UNITTEST_CFG_J", .plain false "UNITTEST_CFG_J"),
     ("UNITTEST_CFG_K", .plain false ("UNITTEST_CFG_I" ++ ":" ++ "UNITTEST_CFG_J")),
     ("UNITTEST_CFG_L", .property (fun _ _ => "UNITTEST_CFG_I" ++ ":" ++ "UNITTEST_CFG_J")),
     ("UNITTEST_CFG_M", .plain true "UNITTEST_CFG_M"),
     ("UNITTEST_CFG_N", .plain true "UNITTEST_CFG_N"),
     ("UNITTEST_CFG_O", .derived (some ("UNITTEST_CFG_M" ++ ":" ++ "UNITTEST_CFG_N"))
        (composeResolver "UNITTEST_CFG_M" "UNITTEST_CFG_N")),
     ("UNITTEST_CFG_P", .plain true "UNITTEST_CFG_P"),
     ("UNITTEST_CFG_Q", .plain true "UNITTEST_CFG_Q"),
     ("UNITTEST_CFG_R", .derived (some ("UNITTEST_CFG_P" ++ ":" ++ "UNITTEST_CFG_Q"))
        (composeResolver "UNITTEST_CFG_P" "UNITTEST_CFG_Q")),
     ("UNITTEST_CFG_S", .plain true "UNITTEST_CFG_S"),
     ("UNITTEST_CFG_T", .plain true "UNITTEST_CFG_T"),
     ("UNITTEST_CFG_U", .derived none
        (sentinelResolver "UNITTEST_CFG_S" "UNITTEST_CFG_T")),
     ("UNITTEST_CFG_V", .plain true "UNITTEST_CFG_V"),
     ("UNITTEST_CFG_W", .plain true "UNITTEST_CFG_W"),
     ("UNITTEST_CFG_X", .derived none
        (sentinelResolver "UNITTEST_CFG_V" "UNITTEST_CFG_W"))]⟩

/-- The inheritance chain of `_UnitTestBaseConfig` (code `"utb"`). -/
def baseChain : Chain := [unitTestBaseConfigClass, defaultConfigClass]

/-- `_UnitTestSubConfig` (test_config.py lines 260-282): overrides the
grandparent `COMPONENT_NAME`, the parent plain A and D, redeclares the parent
plain C as a property and the parent property G as a property, adds the
late-evaluated composing properties `SUB_UNITTEST_1/2/5`, and overrides the
parent derived X with a plain unannotated value. -/
def unitTestSubConfigClass : ConfigClass :=
  ⟨"uts", false,
    [("COMPONENT_NAME", .plain false "Unit Test SubConfig Component"),
     ("UNITTEST_CFG_A", .plain false "SUB_UNITTEST_CFG_A"),
     ("SUB_UNITTEST_1", .property (fun fl _ =>
        (fl "UNITTEST_CFG_A").getD "" ++ ":" ++ (fl "UNITTEST_CFG_D").getD "")),
     ("UNITTEST_CFG_D", .plain false "SUB_UNITTEST_CFG_D"),
     ("SUB_UNITTEST_2", .property (fun fl _ =>
        (fl "UNITTEST_CFG_A").getD "" ++ ":" ++ (fl "UNITTEST_CFG_B").getD "")),
     ("UNITTEST_CFG_C", .property (fun _ _ => "SUB_UNITTEST_CFG_C")),
     ("UNITTEST_CFG_G", .property (fun _ _ => "SUB_UNITTEST_CFG_G")),
     ("SUB_UNITTEST_3", .plain false "SUB_UNITTEST_3"),
     ("SUB_UNITTEST_4", .plain false "SUB_UNITTEST_4"),
     ("SUB_UNITTEST_5", .property (fun fl _ =>
        (fl "SUB_UNITTEST_3").getD "" ++ ":" ++ (fl "SUB_UNITTEST_4").getD "")),
     ("UNITTEST_CFG_X", .plain false "SUB_UNITTEST_CFG_X")]⟩

/-- The inheritance chain of `_UnitTestSubConfig` (code `"uts"`). -/
def subChain : Chain := [unitTestSubConfigClass, unitTestBaseConfigClass, defaultConfigClass]

/-! ## Environment registry, command-line parsing, and the resolution cache

Modelled from the spec: `usaspending_api/config/__init__.py` (the `ENVS`
registry, the `--config KEY=VALUE` command-line parsing, and the memoized
`_load_config` with its explicit `cache_clear`) is not in the source tree. -/

/-- Split a string at every occurrence of one character. -/
def splitCharsAux (c : Char) : List Char → List Char → List (List Char)
  | [], acc => [acc.reverse]
  | x :: xs, acc =>
    if x = c then acc.reverse :: splitCharsAux c xs []
    else splitCharsAux c xs (x :: acc)

/-- Split a string at every occurrence of one character. -/
def splitOnCharStr (c : Char) (s : String) : List String :=
  (splitCharsAux c s.toList []).map (fun cs => String.mk cs)

/-- Rejoin the remainder of a `KEY=VALUE` split whose value itself contained
`=` characters. -/
def joinWithEq : List String → String
  | [] => ""
  | [x] => x
  | x :: xs => x ++ "=" ++ joinWithEq xs

/-- Modelled from the spec: parse one `KEY=VALUE` command-line token into an
explicit-argument pair; a token with no `=` contributes nothing. -/
def parseToken (s : String) : Option (String × Value) :=
  match splitOnCharStr '=' s with
  | [] => none
  | [_] => none
  | k :: rest => some (k, joinWithEq rest)

/-- Modelled from the spec: collect the explicit-argument map from the
command line, reading the space-delimited `KEY=VALUE` tokens of the first
`--config` flag. -/
def cliArgs : List String → List (String × Value)
  | [] => []
  | a :: rest =>
    if a = "--config" then
      match rest with
      | v :: _ => (splitOnCharStr ' ' v).filterMap parseToken
      | [] => []
    else cliArgs rest

/-- A registered runtime environment: its code and its configuration-class
chain. -/
structure RuntimeEnv where
  code : String
  chain : Chain

/-- Modelled from the spec: the environment-selector variable of
`usaspending_api/config/envs/__init__.py` (`ENV_CODE_VAR`), whose exact name
is not in the source tree. -/
def ENV_CODE_VAR : String := "ENV_FOR_DPS"

/-- Modelled from the spec: the `ENVS` registry mapping environment codes to
configuration classes; unit tests fall back to the local environment. -/
def ENVS : List RuntimeEnv :=
  [⟨"lcl", localChain⟩, ⟨"utb", baseChain⟩, ⟨"uts", subChain⟩]

/-- Modelled from the spec: one uncached `_load_config` run — read the
environment selector (defaulting to the local code), pick the registered
chain, and construct it with the command-line explicit arguments. -/
def loadConfigFresh (envs : List RuntimeEnv) (environ dotenv : List (String × Value))
    (argv : List String) : Except ConfigError ResolvedConfig :=
  let code := (environ.lookup ENV_CODE_VAR).getD "lcl"
  match envs.find? (fun e => e.code == code) with
  | none => .error (.unknownEnvironment code)
  | some e => instantiate e.chain dotenv environ (cliArgs argv)

/-- Modelled from the spec: the memoized `_load_config` — on a cache hit
return the memoized snapshot without re-reading any layer; on a miss run a
fresh load and memoize its result. -/
def loadConfigCached (cache : Option ResolvedConfig) (envs : List RuntimeEnv)
    (environ dotenv : List (String × Value)) (argv : List String) :
    Except ConfigError ResolvedConfig × Option ResolvedConfig :=
  match cache with
  | some c => (.ok c, some c)
  | none =>
    match loadConfigFresh envs environ dotenv argv with
    | .ok c => (.ok c, some c)
    | .error e => (.error e, none)

/-- Modelled from the spec: `_load_config.cache_clear()`. -/
def cacheClear (_cache : Option ResolvedConfig) : Option ResolvedConfig := none

/-! ## Scenario chains for the individual claims

Each minimal chain below transcribes exactly the fields of
`_UnitTestBaseConfig` that the corresponding claim's scenario names, so that
universally quantified override values stay tractable; the claim theorems tie
each scenario back to the full `baseChain` at the concrete values the tests
use. -/

/-- The derived late-binding scenario fields of `_UnitTestBaseConfig`:
annotated plain M, N, S, T, the always-compute derived O, and the
sentinel-checking derived U with unset default. -/
def lateBindClass : ConfigClass :=
  ⟨"lbc", false,
    [("UNITTEST_CFG_M", .plain true "UNITTEST_CFG_M"),
     ("UNITTEST_CFG_N", .plain true "UNITTEST_CFG_N"),
     ("UNITTEST_CFG_O", .derived (some ("UNITTEST_CFG_M" ++ ":" ++ "UNITTEST_CFG_N"))
        (composeResolver "UNITTEST_CFG_M" "UNITTEST_CFG_N")),
     ("UNITTEST_CFG_S", .plain true "UNITTEST_CFG_S"),
     ("UNITTEST_CFG_T", .plain true "UNITTEST_CFG_T"),
     ("UNITTEST_CFG_U", .derived none
        (sentinelResolver "UNITTEST_CFG_S" "UNITTEST_CFG_T"))]⟩

/-- The chain of `lateBindClass`. -/
def lateBindChain : Chain := [lateBindClass]

/-- The computed-accessor isolation scenario: one tracked plain field and the
constant property G of `_UnitTestBaseConfig`. -/
def propIsolationClass : ConfigClass :=
  ⟨"pic", false,
    [("UNITTEST_CFG_A", .plain false "UNITTEST_CFG_A"),
     ("UNITTEST_CFG_G", .property (fun _ _ => "UNITTEST_CFG_G"))]⟩

/-- The chain of `propIsolationClass`. -/
def propIsolationChain : Chain := [propIsolationClass]

/-- The eager class-body composition scenario: the plain components I and J,
the eagerly composed K (class-body evaluation has already produced the
concatenated string by the time the class exists), and the lambda L. -/
def eagerComposeClass : ConfigClass :=
  ⟨"ecc", false,
    [("UNITTEST_CFG_I", .plain false "UNITTEST_CFG_I"),
     ("UNITTEST_CFG_J", .plain false "UNITTEST_CFG_J"),
     ("UNITTEST_CFG_K", .plain false ("UNITTEST_CFG_I" ++ ":" ++ "UNITTEST_CFG_J")),
     ("UNITTEST_CFG_L", .property (fun _ _ => "UNITTEST_CFG_I" ++ ":" ++ "UNITTEST_CFG_J"))]⟩

/-- The chain of `eagerComposeClass`. -/
def eagerComposeChain : Chain := [eagerComposeClass]

/-- An invalid authoring of the sentinel-checking derived style: the derived
field carries a non-unset static default. -/
def c6BadClass (d : Value) : ConfigClass :=
  ⟨"bad", false,
    [("UNITTEST_CFG_S", .plain true "UNITTEST_CFG_S"),
     ("UNITTEST_CFG_T", .plain true "UNITTEST_CFG_T"),
     ("UNITTEST_CFG_U", .derived (some d) (sentinelResolver "UNITTEST_CFG_S" "UNITTEST_CFG_T"))]⟩

/-- A subclass that redeclares the parent property `UNITTEST_CFG_F` as a
plain value, the disallowed shadowing of test_config.py line 274. -/
def shadowSubConfigClass : ConfigClass :=
  ⟨"utf", false, [("UNITTEST_CFG_F", .plain false "SUB_UNITTEST_CFG_F")]⟩

/-- The chain of `shadowSubConfigClass` under `_UnitTestBaseConfig`. -/
def shadowChain : Chain := [shadowSubConfigClass, unitTestBaseConfigClass, defaultConfigClass]

/-- The command line of `test_override_with_command_line_args`. -/
def cliArgv : List String :=
  ["dummy_program", "--config", "COMPONENT_NAME=test_override_with_command_line_args"]

/-! ## Claim theorems -/

/-- Claim C1 (precedence law): for a plain field present in all five override
layers, the resolved value is the explicit-argument value; removing the
explicit-argument layer yields the environment-variable value; removing that
yields the dotenv value; removing that yields the subclass default; removing
the subclass yields the base default.  The field name and the five layer
values are arbitrary. -/
theorem plain_field_precedence_law (n : String) (d1 d2 d3 d4 d5 : Value) :
    fieldValueOf (instantiate [⟨"sub", false, [(n, .plain true d2)]⟩,
      ⟨"base", false, [(n, .plain true d1)]⟩] [(n, d3)] [(n, d4)] [(n, d5)]) n = some d5
  ∧ fieldValueOf (instantiate [⟨"sub", false, [(n, .plain true d2)]⟩,
      ⟨"base", false, [(n, .plain true d1)]⟩] [(n, d3)] [(n, d4)] []) n = some d4
  ∧ fieldValueOf (instantiate [⟨"sub", false, [(n, .plain true d2)]⟩,
      ⟨"base", false, [(n, .plain true d1)]⟩] [(n, d3)] [] []) n = some d3
  ∧ fieldValueOf (instantiate [⟨"sub", false, [(n, .plain true d2)]⟩,
      ⟨"base", false, [(n, .plain true d1)]⟩] [] [] []) n = some d2
  ∧ fieldValueOf (instantiate [⟨"base", false, [(n, .plain true d1)]⟩] [] [] []) n = some d1 := by
  simp [fieldValueOf, okFields, instantiate, inspectDeclarations, inspectNames, allNames,
    dedupFirst, declsFor, classifyName, hasShadowError, isTrackedDecl, isPropertyDecl,
    declAnnotated, trackedName, nameAnnotated, orderedFieldNames, resolveNames, rawValue,
    collectAccessors, List.lookup]

/-- Claim C2, counterexample: the property `UNITTEST_CFG_H` reads the process
environment directly, so two runs differing only in the environment variable
of its name disagree on the accessor's value (the test itself asserts the
first value at line 402), refuting the claim's universal statement that every
computed accessor's value is unaffected by a same-named environment
variable. -/
theorem property_env_read_counterexample :
    attrOf (instantiate baseChain [] [("UNITTEST_CFG_H", "ENVVAR_UNITTEST_CFG_H")] [])
      [("UNITTEST_CFG_H", "ENVVAR_UNITTEST_CFG_H")] "UNITTEST_CFG_H"
      = some "ENVVAR_UNITTEST_CFG_H"
  ∧ attrOf (instantiate baseChain [] [] []) [] "UNITTEST_CFG_H" = some "UNITTEST_CFG_H" :=
  ⟨rfl, rfl⟩

/-- Claim C2, amended: a computed accessor whose body does not itself read
the process environment (the constant property G) returns the same value
whether or not a same-named environment variable is set, for any value of
that variable; the property name is absent from the resolved mapping view;
and the environment variable itself stays visible to direct environment
reads.  The same holds on the full `_UnitTestBaseConfig` chain at the test's
concrete value. -/
theorem property_isolation_amended (v : Value) :
    attrOf (instantiate propIsolationChain [] [("UNITTEST_CFG_G", v)] [])
        [("UNITTEST_CFG_G", v)] "UNITTEST_CFG_G"
      = attrOf (instantiate propIsolationChain [] [] []) [] "UNITTEST_CFG_G"
  ∧ attrOf (instantiate propIsolationChain [] [] []) [] "UNITTEST_CFG_G"
      = some "UNITTEST_CFG_G"
  ∧ ((okFields (instantiate propIsolationChain [] [("UNITTEST_CFG_G", v)] [])).map
      Prod.fst).contains "UNITTEST_CFG_G" = false
  ∧ List.lookup "UNITTEST_CFG_G" [("UNITTEST_CFG_G", v)] = some v
  ∧ attrOf (instantiate baseChain [] [("UNITTEST_CFG_G", "ENVVAR_UNITTEST_CFG_G")] [])
      [("UNITTEST_CFG_G", "ENVVAR_UNITTEST_CFG_G")] "UNITTEST_CFG_G" = some "UNITTEST_CFG_G"
  ∧ ((okFields (instantiate baseChain [] [("UNITTEST_CFG_G", "ENVVAR_UNITTEST_CFG_G")] [])).map
      Prod.fst).contains "UNITTEST_CFG_G" = false := by
  refine ⟨?_, ?_, ?_, ?_, rfl, rfl⟩ <;>
  simp [attrOf, getAttr, fieldValueOf, okFields, instantiate, inspectDeclarations, inspectNames,
    allNames, dedupFirst, declsFor, classifyName, hasShadowError, isTrackedDecl, isPropertyDecl,
    declAnnotated, trackedName, nameAnnotated, orderedFieldNames, resolveNames, rawValue,
    collectAccessors, propIsolationClass, propIsolationChain, List.lookup]

/-- Claim C3, counterexample: `_UnitTestSubConfig` redeclares the parent
plain field `UNITTEST_CFG_C` as a property computing `"SUB_UNITTEST_CFG_C"`,
yet reading the field on the subclass yields the parent's plain value
`"UNITTEST_CFG_C"` (asserted by the test at line 346), refuting the claim
that the subclass's computed value wins outright. -/
theorem plain_over_property_counterexample :
    attrOf (instantiate subChain [] [] []) [] "UNITTEST_CFG_C" = some "UNITTEST_CFG_C"
  ∧ attrOf (instantiate subChain [] [] []) [] "UNITTEST_CFG_C"
      ≠ some "SUB_UNITTEST_CFG_C" := by
  have h : attrOf (instantiate subChain [] [] []) [] "UNITTEST_CFG_C"
      = some "UNITTEST_CFG_C" := rfl
  refine ⟨h, ?_⟩
  rw [h]
  decide

/-- Claim C3, amended: a same-kind redeclaration in the most-derived class
wins — a subclass plain value over a parent plain value (A), a subclass
property over a parent property (G), and a subclass plain value over a parent
derived field (X) — but a subclass property redeclaring a parent plain
(tracked) field does not take effect: the parent's plain value is
retained (C). -/
theorem most_derived_same_kind_wins :
    attrOf (instantiate subChain [] [] []) [] "UNITTEST_CFG_A" = some "SUB_UNITTEST_CFG_A"
  ∧ attrOf (instantiate subChain [] [] []) [] "UNITTEST_CFG_G" = some "SUB_UNITTEST_CFG_G"
  ∧ attrOf (instantiate subChain [] [] []) [] "UNITTEST_CFG_X" = some "SUB_UNITTEST_CFG_X"
  ∧ attrOf (instantiate subChain [] [] []) [] "UNITTEST_CFG_C" = some "UNITTEST_CFG_C" :=
  ⟨rfl, rfl, rfl, rfl⟩

/-- Claim C4 (derived override precedence over computation): the
sentinel-checking resolver returns any truthy, non-sentinel incoming value
unchanged, for any values-so-far map; and on the full `_UnitTestBaseConfig`
chain, setting the environment variable `UNITTEST_CFG_U` to the test's
non-sentinel value makes the resolved field equal to that value, ignoring the
`S`/`T` composition. -/
theorem derived_override_precedence (s : Value) (f g : String)
    (values : List (String × Value)) (h1 : s ≠ "") (h2 : s ≠ ENV_SPECIFIC_OVERRIDE)
    (h3 : s ≠ USER_SPECIFIC_OVERRIDE) :
    sentinelResolver f g (some s) none values = .ok s
  ∧ fieldValueOf (instantiate baseChain [] [("UNITTEST_CFG_U", "ENVVAR_UNITTEST_CFG_U")] [])
      "UNITTEST_CFG_U" = some "ENVVAR_UNITTEST_CFG_U" := by
  constructor
  · simp [sentinelResolver, h1, h2, h3]
  · rfl

/-- Witness for `derived_override_precedence` at the test's concrete
environment value. -/
theorem derived_override_precedence_witness :
    sentinelResolver "UNITTEST_CFG_S" "UNITTEST_CFG_T" (some "ENVVAR_UNITTEST_CFG_U") none []
      = .ok "ENVVAR_UNITTEST_CFG_U"
  ∧ fieldValueOf (instantiate baseChain [] [("UNITTEST_CFG_U", "ENVVAR_UNITTEST_CFG_U")] [])
      "UNITTEST_CFG_U" = some "ENVVAR_UNITTEST_CFG_U" :=
  derived_override_precedence "ENVVAR_UNITTEST_CFG_U" "UNITTEST_CFG_S" "UNITTEST_CFG_T" []
    (by decide) (by decide) (by decide)

/-- Claim C5 (derived late-binding): with the derived field left unset, its
resolver composes the final (overridden) values of the component fields, not
their static defaults — for any environment-variable override values `a` of
`M` and `b` of `S`, the always-compute derived `O` resolves to
`a ++ ":" ++ N-default` and the unset sentinel-checking derived `U` resolves
to `b ++ ":" ++ T-default`; the same holds on the full `_UnitTestBaseConfig`
chain at the test's concrete value for `M`. -/
theorem derived_late_binding (a b : Value) :
    fieldValueOf (instantiate lateBindChain [] [("UNITTEST_CFG_M", a), ("UNITTEST_CFG_S", b)] [])
      "UNITTEST_CFG_O" = some (a ++ ":" ++ "UNITTEST_CFG_N")
  ∧ fieldValueOf (instantiate lateBindChain [] [("UNITTEST_CFG_M", a), ("UNITTEST_CFG_S", b)] [])
      "UNITTEST_CFG_U" = some (b ++ ":" ++ "UNITTEST_CFG_T")
  ∧ fieldValueOf (instantiate baseChain [] [("UNITTEST_CFG_M", "ENVVAR_UNITTEST_CFG_M")] [])
      "UNITTEST_CFG_O" = some "ENVVAR_UNITTEST_CFG_M:UNITTEST_CFG_N" := by
  refine ⟨?_, ?_, rfl⟩ <;>
  simp [fieldValueOf, okFields, instantiate, inspectDeclarations, inspectNames, allNames,
    dedupFirst, declsFor, classifyName, hasShadowError, isTrackedDecl, isPropertyDecl,
    declAnnotated, trackedName, nameAnnotated, orderedFieldNames, resolveNames, rawValue,
    collectAccessors, composeResolver, composeFrom, sentinelResolver, lateBindClass,
    lateBindChain, List.lookup]

/-- Claim C6, counterexample: `UNITTEST_CFG_O` is a derived field (annotated,
with a registered resolver) whose static declared default is the non-unset
string `"UNITTEST_CFG_M:UNITTEST_CFG_N"`, yet resolution of the full
`_UnitTestBaseConfig` chain succeeds with no error and silently replaces the
default by the computed composition (asserted by the test at line 418),
refuting the claim that every derived field with a non-unset static default
raises a fatal invalid-declaration error. -/
theorem derived_nonnull_default_no_error :
    isOkCfg (instantiate baseChain [] [("UNITTEST_CFG_M", "ENVVAR_UNITTEST_CFG_M")] []) = true
  ∧ fieldValueOf (instantiate baseChain [] [("UNITTEST_CFG_M", "ENVVAR_UNITTEST_CFG_M")] [])
      "UNITTEST_CFG_O" = some "ENVVAR_UNITTEST_CFG_M:UNITTEST_CFG_N" :=
  ⟨rfl, rfl⟩

/-- Claim C6, amended: a derived field whose resolver applies the designated
sentinel check does raise the fatal invalid-declaration error at first use
whenever its static declared default is any non-unset value, both through the
full resolution pipeline and at the resolver itself. -/
theorem sentinel_resolver_rejects_nonnull_default (d : Value) :
    instantiate [c6BadClass d] [] [] [] = .error .invalidFieldDeclaration
  ∧ sentinelResolver "UNITTEST_CFG_S" "UNITTEST_CFG_T" none (some d) []
      = .error .invalidFieldDeclaration := by
  constructor <;>
  simp [instantiate, inspectDeclarations, inspectNames, allNames, dedupFirst, declsFor,
    classifyName, hasShadowError, isTrackedDecl, isPropertyDecl, declAnnotated, trackedName,
    nameAnnotated, orderedFieldNames, resolveNames, rawValue, collectAccessors,
    sentinelResolver, composeFrom, c6BadClass, List.lookup]

/-- Claim C7: constructing the abstract base configuration class directly
fails immediately with the not-implemented error, while constructing each
registered concrete environment class succeeds. -/
theorem abstract_instantiation_fails :
    instantiate defaultChain [] [] [] = .error .abstractInstantiation
  ∧ isOkCfg (instantiate localChain [] [] []) = true
  ∧ isOkCfg (instantiate baseChain [] [] []) = true
  ∧ isOkCfg (instantiate subChain [] [] []) = true :=
  ⟨rfl, rfl, rfl, rfl⟩

/-- Claim C8: a subclass that redeclares as a plain value a field its parent
declared as a computed accessor fails class-definition inspection with the
ambiguous-shadowing (naming-collision) error, and so does any construction
attempt. -/
theorem plain_shadowing_property_rejected :
    inspectDeclarations shadowChain = .error (.ambiguousShadowing "UNITTEST_CFG_F")
  ∧ instantiate shadowChain [] [] [] = .error (.ambiguousShadowing "UNITTEST_CFG_F") :=
  ⟨rfl, rfl⟩

/-- Claim C9: the first memoized load resolves the base default; a second
call on the warm cache returns the identical memoized snapshot even though
the command line changed; after explicit cache invalidation the next load
re-reads the layers fresh and reflects the new `--config` token, while the
first load's snapshot (a pure value) still carries its original field
value. -/
theorem cache_invalidation_fresh_load :
    fieldValueOf (loadConfigCached none ENVS [] [] ["dummy_program"]).1 "COMPONENT_NAME"
      = some "USAspending API"
  ∧ (loadConfigCached (loadConfigCached none ENVS [] [] ["dummy_program"]).2 ENVS [] [] cliArgv).1
      = (loadConfigCached none ENVS [] [] ["dummy_program"]).1
  ∧ fieldValueOf (loadConfigCached (cacheClear (loadConfigCached none ENVS [] [] ["dummy_program"]).2)
      ENVS [] [] cliArgv).1 "COMPONENT_NAME" = some "test_override_with_command_line_args"
  ∧ fieldValueOf (loadConfigCached none ENVS [] [] ["dummy_program"]).1 "COMPONENT_NAME"
      = some "USAspending API" :=
  ⟨rfl, rfl, rfl, rfl⟩

/-- Claim C10: the class-body-composed plain field K keeps the composition of
its components' static defaults for every environment override `x` of the
component I (which itself resolves to `x`), the lambda-written L is absent
from the tracked field set, and the same holds on the full
`_UnitTestBaseConfig` chain at the test's concrete value. -/
theorem eager_composition_no_late_binding (x : Value) :
    fieldValueOf (instantiate eagerComposeChain [] [("UNITTEST_CFG_I", x)] []) "UNITTEST_CFG_K"
      = some "UNITTEST_CFG_I:UNITTEST_CFG_J"
  ∧ fieldValueOf (instantiate eagerComposeChain [] [("UNITTEST_CFG_I", x)] []) "UNITTEST_CFG_I"
      = some x
  ∧ ((okFields (instantiate eagerComposeChain [] [("UNITTEST_CFG_I", x)] [])).map
      Prod.fst).contains "UNITTEST_CFG_L" = false
  ∧ fieldValueOf (instantiate baseChain [] [("UNITTEST_CFG_I", "ENVVAR_UNITTEST_CFG_I")] [])
      "UNITTEST_CFG_K" = some "UNITTEST_CFG_I:UNITTEST_CFG_J" := by
  refine ⟨?_, ?_, ?_, rfl⟩ <;>
  simp [fieldValueOf, okFields, instantiate, inspectDeclarations, inspectNames, allNames,
    dedupFirst, declsFor, classifyName, hasShadowError, isTrackedDecl, isPropertyDecl,
    declAnnotated, trackedName, nameAnnotated, orderedFieldNames, resolveNames, rawValue,
    collectAccessors, eagerComposeClass, eagerComposeChain, List.lookup]

end UsaConfig
